import Mathlib

/-!
Shallow embedding of the health-telemetry ingestion backend
(`backend/app/apis/ingest/__init__.py` and `backend/app/apis/metrics/__init__.py`).

Modelling conventions, used throughout:
* a timezone-aware `datetime` is its instant, an `Int` of epoch seconds
  (Postgres compares and keys timestamps as instants);
* Python `float` values carried in payloads are modelled as `ℚ` (no claim
  in scope depends on binary floating-point rounding);
* a JSON object whose values the code inspects only numerically
  (`Dict[str, Any]` used via `.get('qty', 0)`) is an association list
  `List (String × ℚ)`;
* the database connection is the two tables, passed as explicit state
  (`Store`); `INSERT ... ON CONFLICT ... DO NOTHING` is an append guarded
  by a natural-key membership test;
* `datetime.now(timezone.utc)` is an explicit `now : Int` parameter of the
  ingestion call.
-/

/-! ## Calendar arithmetic (instant of a civil date/time) -/

/-- Decimal value of a digit character, `none` for a non-digit. -/
def digitVal (c : Char) : Option Nat :=
  if c.isDigit then some (c.toNat - 48) else none

/-- Read exactly `n` decimal digits from the front of `cs`, accumulating into
`acc`; returns the value and the remaining characters. -/
def readFixedNat (acc : Nat) : Nat → List Char → Option (Nat × List Char)
  | 0, cs => some (acc, cs)
  | _ + 1, [] => none
  | n + 1, c :: cs =>
    match digitVal c with
    | some d => readFixedNat (acc * 10 + d) n cs
    | none => none

/-- Consume one expected character. -/
def expectChar (c : Char) : List Char → Option (List Char)
  | [] => none
  | x :: xs => if x = c then some xs else none

/-- Gregorian leap-year test. -/
def isLeapYear (y : Nat) : Bool :=
  y % 4 == 0 && (y % 100 != 0 || y % 400 == 0)

/-- Days in a month of the proleptic Gregorian calendar (month in 1..12). -/
def daysInMonth (y m : Nat) : Nat :=
  match m with
  | 1 => 31
  | 2 => if isLeapYear y then 29 else 28
  | 3 => 31
  | 4 => 30
  | 5 => 31
  | 6 => 30
  | 7 => 31
  | 8 => 31
  | 9 => 30
  | 10 => 31
  | 11 => 30
  | 12 => 31
  | _ => 0

/-- Days from 1970-01-01 to the civil date `y-m-d` (valid for `y ≥ 1`), the
standard era-based conversion used by `datetime.toordinal`. -/
def daysFromCivil (y m d : Nat) : Int :=
  let y2 := if m ≤ 2 then y - 1 else y
  let era := y2 / 400
  let yoe := y2 - era * 400
  let mp := if 2 < m then m - 3 else m + 9
  let doy := (153 * mp + 2) / 5 + d - 1
  let doe := yoe * 365 + yoe / 4 - yoe / 100 + doy
  ((era * 146097 + doe : Nat) : Int) - 719468

/-- Epoch seconds of the aware datetime `y-m-d hh:mi:ss` at UTC offset
`off` seconds. -/
def civilToEpoch (y mo d hh mi ss : Nat) (off : Int) : Int :=
  daysFromCivil y mo d * 86400 + ((hh * 3600 + mi * 60 + ss : Nat) : Int) - off

/-- Date and time component bounds `datetime` enforces on construction. -/
def validDate (y m d : Nat) : Bool :=
  1 ≤ y && y ≤ 9999 && 1 ≤ m && m ≤ 12 && 1 ≤ d && d ≤ daysInMonth y m

/-- Time-of-day component bounds `datetime` enforces on construction. -/
def validTime (hh mi ss : Nat) : Bool :=
  hh ≤ 23 && mi ≤ 59 && ss ≤ 59

/-! ## The two timestamp formats of `parse_swift_datetime` -/

/-- Read a `%z`-style UTC offset: `Z`, or a sign, two hour digits, an
optional colon and two minute digits. Returns the offset in seconds and the
rest of the input. -/
def readOffset : List Char → Option (Int × List Char)
  | [] => none
  | c :: cs =>
    if c = 'Z' then some (0, cs)
    else if c = '+' ∨ c = '-' then
      match readFixedNat 0 2 cs with
      | none => none
      | some (hh, rest) =>
        let rest2 := match rest with
          | ':' :: r => r
          | r => r
        match readFixedNat 0 2 rest2 with
        | none => none
        | some (mm, rest3) =>
          if hh ≤ 23 ∧ mm ≤ 59 then
            let secs : Int := ((hh * 3600 + mm * 60 : Nat) : Int)
            some ((if c = '-' then -secs else secs), rest3)
          else none
    else none

/-- Read the `YYYY-MM-DD` date prefix shared by both formats. -/
def parseDatePart (cs : List Char) : Option (Nat × Nat × Nat × List Char) := do
  let (y, cs) ← readFixedNat 0 4 cs
  let cs ← expectChar '-' cs
  let (mo, cs) ← readFixedNat 0 2 cs
  let cs ← expectChar '-' cs
  let (d, cs) ← readFixedNat 0 2 cs
  pure (y, mo, d, cs)

/-- Read an `HH:MM:SS` time-of-day. -/
def parseTimePart (cs : List Char) : Option (Nat × Nat × Nat × List Char) := do
  let (hh, cs) ← readFixedNat 0 2 cs
  let cs ← expectChar ':' cs
  let (mi, cs) ← readFixedNat 0 2 cs
  let cs ← expectChar ':' cs
  let (ss, cs) ← readFixedNat 0 2 cs
  pure (hh, mi, ss, cs)

/-- Embedding of `datetime.strptime(v, "%Y-%m-%d %H:%M:%S %z")`: the full
input must match date, space, time, space, numeric UTC offset, and the
components must form a valid datetime. -/
def strptimeSwift (s : String) : Option Int :=
  match parseDatePart s.data with
  | none => none
  | some (y, mo, d, rest) =>
    match rest with
    | ' ' :: timecs =>
      match parseTimePart timecs with
      | none => none
      | some (hh, mi, ss, rest2) =>
        match rest2 with
        | ' ' :: offcs =>
          match readOffset offcs with
          | some (off, []) =>
            if validDate y mo d ∧ validTime hh mi ss then
              some (civilToEpoch y mo d hh mi ss off)
            else none
          | _ => none
        | _ => none
    | _ => none

/-- Embedding of `datetime.fromisoformat` on the payload-relevant subset of
ISO-8601: `YYYY-MM-DD`, optionally followed by a `T` or space separator,
`HH:MM:SS` and an optional UTC offset (`Z`, `±HH:MM` or `±HHMM`). A string
without an offset yields a naive datetime, modelled as offset zero. -/
def fromisoformatPy (s : String) : Option Int :=
  match parseDatePart s.data with
  | none => none
  | some (y, mo, d, rest) =>
    if validDate y mo d then
      match rest with
      | [] => some (civilToEpoch y mo d 0 0 0 0)
      | sep :: timecs =>
        if sep = 'T' ∨ sep = ' ' then
          match parseTimePart timecs with
          | none => none
          | some (hh, mi, ss, rest2) =>
            if validTime hh mi ss then
              match rest2 with
              | [] => some (civilToEpoch y mo d hh mi ss 0)
              | _ =>
                match readOffset rest2 with
                | some (off, []) => some (civilToEpoch y mo d hh mi ss off)
                | _ => none
            else none
        else none
    else none

/-- Embedding of the Python expression `v.replace('Z', '+00:00')`: every
occurrence of the one-character pattern `Z` becomes `+00:00`. -/
def pyReplaceZ (s : String) : String :=
  String.mk (s.data.flatMap (fun c => if c = 'Z' then "+00:00".data else [c]))

/-- A value arriving in a timestamp-typed field: either a JSON string or an
already-parsed datetime (the non-string pass-through case of the validator). -/
inductive DateValue
  | str (s : String)
  | dt (t : Int)
deriving DecidableEq

/-- Embedding of the `parse_swift_datetime` validator shared by
`CommonPoint`, `SleepEntry`, `EnergyPoint`, `HeartRatePoint` and
`HAEWorkout`: for a string, first try the fixed Swift/ObjC pattern, and on
failure parse as ISO-8601 with `Z` replaced by `+00:00`; a non-string input
is returned unchanged. `none` is the `ValueError` that makes the containing
record fail validation. -/
def parse_swift_datetime : DateValue → Option Int
  | .str s =>
    match strptimeSwift s with
    | some t => some t
    | none => fromisoformatPy (pyReplaceZ s)
  | .dt t => some t

example : strptimeSwift "2025-06-25 00:00:00 +0200" = some 1750802400 := by decide
example : fromisoformatPy "2025-06-24T22:00:00+00:00" = some 1750802400 := by decide
example : parse_swift_datetime (.str "2025-06-24T22:00:00Z") = some 1750802400 := by decide
example : parse_swift_datetime (.str "not-a-date") = none := by decide

/-! ## Validated payload data model (the pydantic models) -/

/-- Embedding of Python `int(x)` on a real value: truncation toward zero. -/
def pyInt (q : ℚ) : Int :=
  if 0 ≤ q then ⌊q⌋ else ⌈q⌉

/-- Model of `CommonPoint`: one scalar measurement, its `date` already
normalized to an instant by the validator. -/
structure CommonPoint where
  date : Int
  qty : ℚ
deriving DecidableEq

/-- Model of `CommonMetric`: a named block of common data points. -/
structure CommonMetric where
  name : String
  units : String
  data : List CommonPoint
deriving DecidableEq

/-- Model of `SleepEntry`: one rich sleep session. Hour-denominated floats;
`date`, `sleepStart`, `sleepEnd` already normalized to instants. -/
structure SleepEntry where
  date : Int
  asleep : ℚ
  awake : ℚ
  core : ℚ
  deep : ℚ
  rem : ℚ
  sleepStart : Int
  sleepEnd : Int
  source : String
  totalSleep : ℚ
deriving DecidableEq

/-- Model of `SleepMetric`: its `name` is the literal `"sleep_analysis"`
(a `Literal` field in the source), so only `units` and `data` vary. -/
structure SleepMetric where
  units : String
  data : List SleepEntry
deriving DecidableEq

/-- A JSON object inspected only opportunistically and numerically
(`Dict[str, Any]` read via `.get('qty', 0)` / `'qty' in d`). -/
abbrev PyDict := List (String × ℚ)

/-- Python `d.get(k)`: first value bound to the key, if any. -/
def pyDictGet? (d : PyDict) (k : String) : Option ℚ :=
  (d.find? (fun kv => kv.1 == k)).map (fun kv => kv.2)

/-- Model of `HAEWorkout`: direct optional fields, with the two energy
encodings and the untyped sub-objects carried through. The source field
`end` is spelled `end_` (`end` is a Lean keyword). -/
structure HAEWorkout where
  start : Option Int := none
  end_ : Option Int := none
  duration : Option ℚ := none
  workoutType : Option String := none
  location : Option String := none
  activeEnergyBurned : Option PyDict := none
  activeEnergy : Option (List PyDict) := none
  heartRateRecovery : Option (List PyDict) := none
  heartRateData : Option (List PyDict) := none
  intensity : Option PyDict := none
  metadata : Option PyDict := none
  source : Option String := none
deriving DecidableEq

/-- The discriminated metric union: a block is exactly one of the two
shapes, decided by `metric_discriminator` before validation. -/
inductive Metric
  | common (m : CommonMetric)
  | sleep (m : SleepMetric)
deriving DecidableEq

/-- The `name` field of either variant of the union (`SleepMetric.name` is
the literal `"sleep_analysis"`). -/
def Metric.name : Metric → String
  | .common m => m.name
  | .sleep _ => "sleep_analysis"

/-- Whether a union member is the common variant. -/
def Metric.isCommon : Metric → Bool
  | .common _ => true
  | .sleep _ => false

/-- Model of `DataNode`. -/
structure DataNode where
  metrics : List Metric
  workouts : List HAEWorkout
deriving DecidableEq

/-- Model of `HealthAutoExportPayload`. -/
structure HealthAutoExportPayload where
  data : DataNode
  request_id : Option String
deriving DecidableEq

/-- Counts returned in the webhook response (`processed` dict). -/
structure ProcessedCounts where
  metrics : Nat
  sleep : Nat
  workouts : Nat
deriving DecidableEq

/-- Model of `WebhookResponse`. -/
structure WebhookResponse where
  success : Bool
  message : String
  processed : ProcessedCounts
  request_hash : String
deriving DecidableEq

/-! ## Stored rows and the two tables -/

/-- A persisted `health_metrics` row. -/
structure MetricRow where
  user_id : String
  metric_name : String
  metric_unit : String
  timestamp : Int
  value : ℚ
deriving DecidableEq

/-- A persisted `sleep_metrics` row. -/
structure SleepRow where
  user_id : String
  start_time : Int
  end_time : Int
  duration_total_minutes : Int
  duration_in_bed_minutes : Int
  duration_awake_minutes : Int
  duration_light_minutes : Int
  duration_deep_minutes : Int
  duration_rem_minutes : Int
  efficiency : ℚ
deriving DecidableEq

/-- The database state the connection reaches: both tables. -/
structure Store where
  health_metrics : List MetricRow
  sleep_metrics : List SleepRow
deriving DecidableEq

/-- Natural-key match on `health_metrics`: `(user_id, metric_name, timestamp)`. -/
def sameMetricKey (r : MetricRow) (u n : String) (t : Int) : Bool :=
  r.user_id == u && r.metric_name == n && r.timestamp == t

/-- Whether a `health_metrics` row with this natural key already exists. -/
def metricKeyPresent (st : List MetricRow) (u n : String) (t : Int) : Bool :=
  st.any (fun r => sameMetricKey r u n t)

/-- The `INSERT ... ON CONFLICT (user_id, metric_name, timestamp) DO
NOTHING` statement: append unless the natural key is already present. -/
def insertOrIgnoreMetric (st : List MetricRow) (r : MetricRow) : List MetricRow :=
  if metricKeyPresent st r.user_id r.metric_name r.timestamp then st else st ++ [r]

/-- Natural-key match on `sleep_metrics`: `(user_id, start_time)`. -/
def sameSleepKey (x : SleepRow) (u : String) (s : Int) : Bool :=
  x.user_id == u && x.start_time == s

/-- Whether a `sleep_metrics` row with this natural key already exists. -/
def sleepKeyPresent (st : List SleepRow) (u : String) (s : Int) : Bool :=
  st.any (fun x => sameSleepKey x u s)

/-- The `INSERT ... ON CONFLICT (user_id, start_time) DO NOTHING`
statement on `sleep_metrics`. -/
def insertOrIgnoreSleep (st : List SleepRow) (r : SleepRow) : List SleepRow :=
  if sleepKeyPresent st r.user_id r.start_time then st else st ++ [r]

/-! ## The three insert functions of the ingest module -/

/-- The `health_metrics` row written for one common data point. -/
def metricRowOfPoint (u mname munits : String) (p : CommonPoint) : MetricRow :=
  { user_id := u, metric_name := mname, metric_unit := munits,
    timestamp := p.date, value := p.qty }

/-- Inner loop of `insert_health_metrics` over one block's `data`: every
point is written with insert-or-ignore and the counter increments after the
statement, conflict or not. -/
def insertMetricPoints (u mname munits : String) :
    List MetricRow → List CommonPoint → List MetricRow × Nat
  | st, [] => (st, 0)
  | st, p :: rest =>
    let st1 := insertOrIgnoreMetric st (metricRowOfPoint u mname munits p)
    let r := insertMetricPoints u mname munits st1 rest
    (r.1, r.2 + 1)

/-- Embedding of `insert_health_metrics(conn, user_id, metrics)`: the two
nested loops over blocks and their data points, returning the new table
state and `inserted_count`. The `try/except` around each execute catches
database errors, which the pure model has none of. -/
def insert_health_metrics (u : String) :
    List MetricRow → List CommonMetric → List MetricRow × Nat
  | st, [] => (st, 0)
  | st, m :: rest =>
    let r1 := insertMetricPoints u m.name m.units st m.data
    let r2 := insert_health_metrics u r1.1 rest
    (r2.1, r1.2 + r2.2)

/-- The `sleep_metrics` row computed inside `insert_sleep_metrics_from_analysis`
for one sleep entry: hour fields scaled by 60 and truncated with `int()`,
time in bed from `sleepEnd - sleepStart`, efficiency guarded by
`total_time_in_bed > 0`, and `core` stored in the light-sleep column. -/
def sleepRowOf (u : String) (e : SleepEntry) : SleepRow :=
  let total_sleep_minutes := pyInt (e.totalSleep * 60)
  let awake_minutes := pyInt (e.awake * 60)
  let core_minutes := pyInt (e.core * 60)
  let deep_minutes := pyInt (e.deep * 60)
  let rem_minutes := pyInt (e.rem * 60)
  let total_time_in_bed := pyInt (((e.sleepEnd - e.sleepStart : Int) : ℚ) / 60)
  let efficiency : ℚ :=
    if 0 < total_time_in_bed then
      (total_sleep_minutes : ℚ) / (total_time_in_bed : ℚ) * 100
    else 0
  { user_id := u, start_time := e.sleepStart, end_time := e.sleepEnd,
    duration_total_minutes := total_sleep_minutes,
    duration_in_bed_minutes := total_time_in_bed,
    duration_awake_minutes := awake_minutes,
    duration_light_minutes := core_minutes,
    duration_deep_minutes := deep_minutes,
    duration_rem_minutes := rem_minutes,
    efficiency := efficiency }

/-- Loop of `insert_sleep_metrics_from_analysis` over the entries: one
insert-or-ignore per entry, counter incremented after each statement. -/
def insertSleepEntries (u : String) :
    List SleepRow → List SleepEntry → List SleepRow × Nat
  | st, [] => (st, 0)
  | st, e :: rest =>
    let st1 := insertOrIgnoreSleep st (sleepRowOf u e)
    let r := insertSleepEntries u st1 rest
    (r.1, r.2 + 1)

/-- Embedding of `insert_sleep_metrics_from_analysis(conn, user_id, sleep_metric)`. -/
def insert_sleep_metrics_from_analysis (u : String) (st : List SleepRow)
    (sleep_metric : SleepMetric) : List SleepRow × Nat :=
  insertSleepEntries u st sleep_metric.data

/-- Sum of `energy_point['qty']` over a timeseries, skipping elements
without a `qty` key (`if isinstance(energy_point, dict) and 'qty' in
energy_point`). -/
def sumSeriesQty : List PyDict → ℚ
  | [] => 0
  | ep :: rest =>
    (match pyDictGet? ep "qty" with
     | some q => q
     | none => 0) + sumSeriesQty rest

/-- Series branch of the calorie extraction: a missing or empty (falsy)
`activeEnergy` list leaves `total_calories` at 0. -/
def totalCaloriesFromSeries (w : HAEWorkout) : ℚ :=
  match w.activeEnergy with
  | some l => if l.isEmpty then 0 else sumSeriesQty l
  | none => 0

/-- Calorie extraction of `insert_workout_metrics`: a present truthy
(non-empty) `activeEnergyBurned` dict wins with `d.get('qty', 0)`,
otherwise the `activeEnergy` series is summed, otherwise 0. -/
def totalCalories (w : HAEWorkout) : ℚ :=
  match w.activeEnergyBurned with
  | some d =>
    if d.isEmpty then totalCaloriesFromSeries w
    else
      match pyDictGet? d "qty" with
      | some q => q
      | none => 0
  | none => totalCaloriesFromSeries w

/-- Workout duration in minutes: `end - start` when both are present, else
the explicit `duration` field, else 0. Computed by the source only for
logging; no stored row carries it. -/
def durationMinutes (w : HAEWorkout) : ℚ :=
  match w.start, w.end_ with
  | some s, some e => ((e - s : Int) : ℚ) / 60
  | _, _ =>
    match w.duration with
    | some d => d
    | none => 0

/-- The `health_metrics` row a workout writes: fixed name `workout` and
unit `cal`, timestamped `workout.start or datetime.now(timezone.utc)`. -/
def workoutRowOf (u : String) (now : Int) (w : HAEWorkout) (cal : ℚ) : MetricRow :=
  { user_id := u, metric_name := "workout", metric_unit := "cal",
    timestamp := w.start.getD now, value := cal }

/-- Embedding of `insert_workout_metrics(conn, user_id, workouts)`: per
workout, extract total calories and write a row only when they are
positive; the counter increments only on that write. -/
def insert_workout_metrics (u : String) (now : Int) :
    List MetricRow → List HAEWorkout → List MetricRow × Nat
  | st, [] => (st, 0)
  | st, w :: rest =>
    let total_calories := totalCalories w
    let step : List MetricRow × Nat :=
      if 0 < total_calories then
        (insertOrIgnoreMetric st (workoutRowOf u now w total_calories), 1)
      else (st, 0)
    let r := insert_workout_metrics u now step.1 rest
    (r.1, step.2 + r.2)

/-! ## Discrimination, raw payloads and whole-payload validation -/

/-- A raw (not yet validated) common-shaped data point: either field may be
missing and the date may be an unparseable string. -/
structure RawCommonPoint where
  date : Option DateValue
  qty : Option ℚ
deriving DecidableEq

/-- A raw metric block as the discriminator sees it: an untyped JSON object
with optional `name` and `units` and a data array. -/
structure RawBlock where
  name : Option String
  units : Option String
  data : List RawCommonPoint
deriving DecidableEq

/-- A raw webhook payload. This raw universe covers the payloads whose
metric blocks are common-shaped (the workouts array is carried through
already well-typed); it is what claims about malformed common data points
range over. -/
structure RawPayload where
  metrics : List RawBlock
  workouts : List HAEWorkout
  request_id : Option String
deriving DecidableEq

/-- Embedding of `metric_discriminator(v)`: a dict whose `name` equals the
literal `sleep_analysis` is tagged `sleep`, anything else `common`. -/
def metric_discriminator (v : RawBlock) : String :=
  if v.name = some "sleep_analysis" then "sleep" else "common"

/-- Pydantic validation of one raw point against the `CommonPoint` model:
both fields required, the date put through `parse_swift_datetime`. -/
def validateCommonPoint (p : RawCommonPoint) : Option CommonPoint :=
  match p.date, p.qty with
  | some d, some q =>
    match parse_swift_datetime d with
    | some t => some { date := t, qty := q }
    | none => none
  | _, _ => none

/-- All-or-nothing validation of a block's data array: pydantic fails the
whole list if any element fails. -/
def validatePoints : List RawCommonPoint → Option (List CommonPoint)
  | [] => some []
  | p :: rest =>
    match validateCommonPoint p, validatePoints rest with
    | some c, some cs => some (c :: cs)
    | _, _ => none

/-- Validation of one raw block against the discriminated union: the tag
chosen by `metric_discriminator` decides which model is enforced. A
sleep-tagged block requires every data element to satisfy the `SleepEntry`
schema; a `RawCommonPoint` record lacks the nine required sleep fields, so
in this raw universe only an empty data array validates as sleep. -/
def validateBlock (b : RawBlock) : Option Metric :=
  if metric_discriminator b = "sleep" then
    match b.units, b.data with
    | some u, [] => some (.sleep { units := u, data := [] })
    | _, _ => none
  else
    match b.name, b.units with
    | some n, some u =>
      match validatePoints b.data with
      | some pts => some (.common { name := n, units := u, data := pts })
      | none => none
    | _, _ => none

/-- All-or-nothing validation of the metrics array. -/
def validateBlocks : List RawBlock → Option (List Metric)
  | [] => some []
  | b :: rest =>
    match validateBlock b, validateBlocks rest with
    | some m, some ms => some (m :: ms)
    | _, _ => none

/-- Embedding of `HealthAutoExportPayload(**raw_payload)`: pydantic
validates the whole document at once; any failing record anywhere fails
the entire payload (the webhook then raises `HTTPException(422)`). -/
def validatePayload (raw : RawPayload) : Option HealthAutoExportPayload :=
  match validateBlocks raw.metrics with
  | some ms =>
    some { data := { metrics := ms, workouts := raw.workouts },
           request_id := raw.request_id }
  | none => none

/-! ## The webhook orchestrator -/

/-- One iteration of the webhook's metric loop: `if metric.name ==
"sleep_analysis"` routes the block to the sleep insert, every other block
to `insert_health_metrics(conn, user_id, [metric])`; the discriminated
union makes the name test and the variant coincide. Returns the new store
and this block's contribution to `(metrics, sleep)` counts. -/
def processMetric (u : String) (st : Store) : Metric → Store × (Nat × Nat)
  | .sleep sm =>
    let r := insert_sleep_metrics_from_analysis u st.sleep_metrics sm
    ({ st with sleep_metrics := r.1 }, (0, r.2))
  | .common cm =>
    let r := insert_health_metrics u st.health_metrics [cm]
    ({ st with health_metrics := r.1 }, (r.2, 0))

/-- The webhook's loop over `payload.data.metrics`, accumulating the
`processed_counts` for metrics and sleep. The per-block `try/except`
catches insert-time errors, of which the pure model has none. -/
def processMetricsLoop (u : String) : Store → List Metric → Store × (Nat × Nat)
  | st, [] => (st, (0, 0))
  | st, m :: rest =>
    let r1 := processMetric u st m
    let r2 := processMetricsLoop u r1.1 rest
    (r2.1, (r1.2.1 + r2.2.1, r1.2.2 + r2.2.2))

/-- Embedding of `health_auto_export_webhook(user_id, request)`: validate
the whole payload (failure is caught by the global handler and produces a
`success=false` response with zero counts and no writes), then run the
metric loop, then the workout insert (guarded by the payload's truthy
workouts list), and report the summary counts. -/
def health_auto_export_webhook (user_id : String) (now : Int) (st : Store)
    (raw : RawPayload) : Store × WebhookResponse :=
  match validatePayload raw with
  | none =>
    (st, { success := false,
           message := "Failed to process health data",
           processed := { metrics := 0, sleep := 0, workouts := 0 },
           request_hash := "error" })
  | some payload =>
    let r := processMetricsLoop user_id st payload.data.metrics
    let w :=
      if payload.data.workouts.isEmpty then (r.1.health_metrics, 0)
      else insert_workout_metrics user_id now r.1.health_metrics payload.data.workouts
    ({ r.1 with health_metrics := w.1 },
     { success := true,
       message := "Successfully processed health data",
       processed := { metrics := r.2.1, sleep := r.2.2, workouts := w.2 },
       request_hash := "success" })

/-! ## The metrics query endpoint -/

/-- One `{timestamp, value}` pair of a query response. -/
structure MetricDataPoint where
  timestamp : Int
  value : ℚ
deriving DecidableEq

/-- Model of `MetricsResponse`. -/
structure MetricsResponse where
  data : List MetricDataPoint
  total_count : Int
deriving DecidableEq

/-- Embedding of the request-handling prefix of `get_metrics`: the
authentication guard and the date-range guard (`if from_date and to_date
and from_date >= to_date: 400`). What the database returns past the guards
is external and passed in as `queryResult`. -/
def get_metrics (user : Option String) (from_date to_date : Option Int)
    (queryResult : MetricsResponse) : Except (Nat × String) MetricsResponse :=
  match user with
  | none => .error (401, "Authentication required")
  | some _ =>
    match from_date, to_date with
    | some f, some t =>
      if f ≥ t then .error (400, "from date must be before to date")
      else .ok queryResult
    | _, _ => .ok queryResult

/-! ## Helper lemmas: natural-key inserts are first-write-wins -/

@[simp] theorem sleepRowOf_user_id (u : String) (e : SleepEntry) :
    (sleepRowOf u e).user_id = u := rfl

@[simp] theorem sleepRowOf_start_time (u : String) (e : SleepEntry) :
    (sleepRowOf u e).start_time = e.sleepStart := rfl

theorem metricKeyPresent_insertOrIgnore_self (st : List MetricRow) (r : MetricRow) :
    metricKeyPresent (insertOrIgnoreMetric st r) r.user_id r.metric_name r.timestamp = true := by
  by_cases h : metricKeyPresent st r.user_id r.metric_name r.timestamp = true
  · rw [insertOrIgnoreMetric, if_pos h]; exact h
  · rw [insertOrIgnoreMetric, if_neg h]
    simp [metricKeyPresent, sameMetricKey, List.any_append]

theorem metricKeyPresent_insertOrIgnore_mono (st : List MetricRow) (r : MetricRow)
    (u n : String) (t : Int) (h : metricKeyPresent st u n t = true) :
    metricKeyPresent (insertOrIgnoreMetric st r) u n t = true := by
  rw [insertOrIgnoreMetric]
  split
  · exact h
  · simp only [metricKeyPresent] at h ⊢
    rw [List.any_append]
    simp [h]

theorem insertOrIgnoreMetric_of_present (st : List MetricRow) (r : MetricRow)
    (h : metricKeyPresent st r.user_id r.metric_name r.timestamp = true) :
    insertOrIgnoreMetric st r = st := by
  rw [insertOrIgnoreMetric, if_pos h]

theorem sleepKeyPresent_insertOrIgnore_self (st : List SleepRow) (r : SleepRow) :
    sleepKeyPresent (insertOrIgnoreSleep st r) r.user_id r.start_time = true := by
  by_cases h : sleepKeyPresent st r.user_id r.start_time = true
  · rw [insertOrIgnoreSleep, if_pos h]; exact h
  · rw [insertOrIgnoreSleep, if_neg h]
    simp [sleepKeyPresent, sameSleepKey, List.any_append]

theorem sleepKeyPresent_insertOrIgnore_mono (st : List SleepRow) (r : SleepRow)
    (u : String) (s : Int) (h : sleepKeyPresent st u s = true) :
    sleepKeyPresent (insertOrIgnoreSleep st r) u s = true := by
  rw [insertOrIgnoreSleep]
  split
  · exact h
  · simp only [sleepKeyPresent] at h ⊢
    rw [List.any_append]
    simp [h]

theorem insertOrIgnoreSleep_of_present (st : List SleepRow) (r : SleepRow)
    (h : sleepKeyPresent st r.user_id r.start_time = true) :
    insertOrIgnoreSleep st r = st := by
  rw [insertOrIgnoreSleep, if_pos h]

theorem insertMetricPoints_mono (u mname munits : String) (pts : List CommonPoint)
    (st : List MetricRow) (u' n' : String) (t' : Int)
    (h : metricKeyPresent st u' n' t' = true) :
    metricKeyPresent (insertMetricPoints u mname munits st pts).1 u' n' t' = true := by
  induction pts generalizing st with
  | nil => simpa [insertMetricPoints] using h
  | cons p rest ih =>
    simp only [insertMetricPoints]
    exact ih _ (metricKeyPresent_insertOrIgnore_mono _ _ _ _ _ h)

theorem insertMetricPoints_done (u mname munits : String) (pts : List CommonPoint)
    (st : List MetricRow) (p : CommonPoint) (hp : p ∈ pts) :
    metricKeyPresent (insertMetricPoints u mname munits st pts).1 u mname p.date = true := by
  induction pts generalizing st with
  | nil => cases hp
  | cons q rest ih =>
    simp only [insertMetricPoints]
    rcases List.mem_cons.mp hp with hq | hrest
    · subst hq
      apply insertMetricPoints_mono
      simpa [metricRowOfPoint] using
        metricKeyPresent_insertOrIgnore_self st (metricRowOfPoint u mname munits p)
    · exact ih _ hrest

theorem insertMetricPoints_of_done (u mname munits : String) (pts : List CommonPoint)
    (st : List MetricRow)
    (h : ∀ p ∈ pts, metricKeyPresent st u mname p.date = true) :
    (insertMetricPoints u mname munits st pts).1 = st := by
  induction pts generalizing st with
  | nil => simp [insertMetricPoints]
  | cons q rest ih =>
    simp only [insertMetricPoints]
    have hst : insertOrIgnoreMetric st (metricRowOfPoint u mname munits q) = st := by
      apply insertOrIgnoreMetric_of_present
      simpa [metricRowOfPoint] using h q (List.mem_cons_self q rest)
    rw [hst]
    exact ih _ (fun p hp => h p (List.mem_cons_of_mem _ hp))

theorem insertMetricPoints_count (u mname munits : String) (pts : List CommonPoint)
    (st : List MetricRow) :
    (insertMetricPoints u mname munits st pts).2 = pts.length := by
  induction pts generalizing st with
  | nil => simp [insertMetricPoints]
  | cons q rest ih => simp [insertMetricPoints, ih]

theorem insertSleepEntries_mono (u : String) (es : List SleepEntry)
    (st : List SleepRow) (u' : String) (s' : Int)
    (h : sleepKeyPresent st u' s' = true) :
    sleepKeyPresent (insertSleepEntries u st es).1 u' s' = true := by
  induction es generalizing st with
  | nil => simpa [insertSleepEntries] using h
  | cons e rest ih =>
    simp only [insertSleepEntries]
    exact ih _ (sleepKeyPresent_insertOrIgnore_mono _ _ _ _ h)

theorem insertSleepEntries_done (u : String) (es : List SleepEntry)
    (st : List SleepRow) (e : SleepEntry) (he : e ∈ es) :
    sleepKeyPresent (insertSleepEntries u st es).1 u e.sleepStart = true := by
  induction es generalizing st with
  | nil => cases he
  | cons q rest ih =>
    simp only [insertSleepEntries]
    rcases List.mem_cons.mp he with hq | hrest
    · subst hq
      apply insertSleepEntries_mono
      simpa using sleepKeyPresent_insertOrIgnore_self st (sleepRowOf u e)
    · exact ih _ hrest

theorem insertSleepEntries_of_done (u : String) (es : List SleepEntry)
    (st : List SleepRow)
    (h : ∀ e ∈ es, sleepKeyPresent st u e.sleepStart = true) :
    (insertSleepEntries u st es).1 = st := by
  induction es generalizing st with
  | nil => simp [insertSleepEntries]
  | cons q rest ih =>
    simp only [insertSleepEntries]
    have hst : insertOrIgnoreSleep st (sleepRowOf u q) = st := by
      apply insertOrIgnoreSleep_of_present
      simpa using h q (List.mem_cons_self q rest)
    rw [hst]
    exact ih _ (fun e he => h e (List.mem_cons_of_mem _ he))

theorem insertSleepEntries_count (u : String) (es : List SleepEntry)
    (st : List SleepRow) :
    (insertSleepEntries u st es).2 = es.length := by
  induction es generalizing st with
  | nil => simp [insertSleepEntries]
  | cons q rest ih => simp [insertSleepEntries, ih]

theorem insert_health_metrics_single (u : String) (st : List MetricRow)
    (cm : CommonMetric) :
    insert_health_metrics u st [cm] = insertMetricPoints u cm.name cm.units st cm.data := by
  simp [insert_health_metrics]

/-! ## Store-level lemmas for the metric loop -/

/-- Every natural key a metric block would write is already present. -/
def metricDone (u : String) (st : Store) : Metric → Prop
  | .common cm => ∀ p ∈ cm.data, metricKeyPresent st.health_metrics u cm.name p.date = true
  | .sleep sm => ∀ e ∈ sm.data, sleepKeyPresent st.sleep_metrics u e.sleepStart = true

theorem processMetric_fst_common (u : String) (st : Store) (cm : CommonMetric) :
    (processMetric u st (.common cm)).1
      = { st with health_metrics := (insertMetricPoints u cm.name cm.units st.health_metrics cm.data).1 } := by
  simp [processMetric, insert_health_metrics_single]

theorem processMetric_fst_sleep (u : String) (st : Store) (sm : SleepMetric) :
    (processMetric u st (.sleep sm)).1
      = { st with sleep_metrics := (insertSleepEntries u st.sleep_metrics sm.data).1 } := by
  simp [processMetric, insert_sleep_metrics_from_analysis]

theorem processMetric_done (u : String) (st : Store) (m : Metric) :
    metricDone u (processMetric u st m).1 m := by
  cases m with
  | common cm =>
    rw [processMetric_fst_common]
    intro p hp
    exact insertMetricPoints_done u cm.name cm.units cm.data st.health_metrics p hp
  | sleep sm =>
    rw [processMetric_fst_sleep]
    intro e he
    exact insertSleepEntries_done u sm.data st.sleep_metrics e he

theorem processMetric_mono (u : String) (st : Store) (m m' : Metric)
    (h : metricDone u st m') : metricDone u (processMetric u st m).1 m' := by
  cases m with
  | common cm =>
    rw [processMetric_fst_common]
    cases m' with
    | common cm' =>
      intro p hp
      exact insertMetricPoints_mono _ _ _ _ _ _ _ _ (h p hp)
    | sleep sm' => exact h
  | sleep sm =>
    rw [processMetric_fst_sleep]
    cases m' with
    | common cm' => exact h
    | sleep sm' =>
      intro e he
      exact insertSleepEntries_mono _ _ _ _ _ (h e he)

theorem processMetric_of_done (u : String) (st : Store) (m : Metric)
    (h : metricDone u st m) : (processMetric u st m).1 = st := by
  cases m with
  | common cm =>
    rw [processMetric_fst_common, insertMetricPoints_of_done u cm.name cm.units cm.data st.health_metrics h]
  | sleep sm =>
    rw [processMetric_fst_sleep, insertSleepEntries_of_done u sm.data st.sleep_metrics h]

theorem processMetricsLoop_mono (u : String) (ms : List Metric) (st : Store)
    (m' : Metric) (h : metricDone u st m') :
    metricDone u (processMetricsLoop u st ms).1 m' := by
  induction ms generalizing st with
  | nil => simpa [processMetricsLoop] using h
  | cons m rest ih =>
    simp only [processMetricsLoop]
    exact ih _ (processMetric_mono u st m m' h)

theorem processMetricsLoop_done (u : String) (ms : List Metric) (st : Store)
    (m : Metric) (hm : m ∈ ms) :
    metricDone u (processMetricsLoop u st ms).1 m := by
  induction ms generalizing st with
  | nil => cases hm
  | cons q rest ih =>
    simp only [processMetricsLoop]
    rcases List.mem_cons.mp hm with hq | hrest
    · subst hq
      exact processMetricsLoop_mono u rest _ m (processMetric_done u st m)
    · exact ih _ hrest

theorem processMetricsLoop_of_done (u : String) (ms : List Metric) (st : Store)
    (h : ∀ m ∈ ms, metricDone u st m) :
    (processMetricsLoop u st ms).1 = st := by
  induction ms generalizing st with
  | nil => simp [processMetricsLoop]
  | cons q rest ih =>
    simp only [processMetricsLoop]
    rw [processMetric_of_done u st q (h q (List.mem_cons_self q rest))]
    exact ih _ (fun m hm => h m (List.mem_cons_of_mem _ hm))

theorem processMetricsLoop_idempotent (u : String) (ms : List Metric) (st : Store) :
    (processMetricsLoop u (processMetricsLoop u st ms).1 ms).1
      = (processMetricsLoop u st ms).1 :=
  processMetricsLoop_of_done u ms _ (fun m hm => processMetricsLoop_done u ms st m hm)

/-! ## Count lemmas: `processed` counts every attempted write -/

/-- Total number of data points sitting in the common blocks of a metrics
array. -/
def commonPointCount : List Metric → Nat
  | [] => 0
  | .common cm :: rest => cm.data.length + commonPointCount rest
  | .sleep _ :: rest => commonPointCount rest

/-- Total number of sleep entries sitting in the sleep blocks of a metrics
array. -/
def sleepEntryCount : List Metric → Nat
  | [] => 0
  | .common _ :: rest => sleepEntryCount rest
  | .sleep sm :: rest => sm.data.length + sleepEntryCount rest

theorem processMetric_snd (u : String) (st : Store) (m : Metric) :
    (processMetric u st m).2
      = match m with
        | .common cm => (cm.data.length, 0)
        | .sleep sm => (0, sm.data.length) := by
  cases m with
  | common cm =>
    simp [processMetric, insert_health_metrics_single, insertMetricPoints_count]
  | sleep sm =>
    simp [processMetric, insert_sleep_metrics_from_analysis, insertSleepEntries_count]

theorem processMetricsLoop_snd (u : String) (ms : List Metric) (st : Store) :
    (processMetricsLoop u st ms).2 = (commonPointCount ms, sleepEntryCount ms) := by
  induction ms generalizing st with
  | nil => simp [processMetricsLoop, commonPointCount, sleepEntryCount]
  | cons m rest ih =>
    simp only [processMetricsLoop]
    cases m with
    | common cm =>
      simp [processMetric_snd, ih, commonPointCount, sleepEntryCount]
    | sleep sm =>
      simp [processMetric_snd, ih, commonPointCount, sleepEntryCount]

/-! ## Whole-payload validation failure lemmas -/

theorem validatePoints_none (pts : List RawCommonPoint) (p : RawCommonPoint)
    (hp : p ∈ pts) (hbad : validateCommonPoint p = none) :
    validatePoints pts = none := by
  induction pts with
  | nil => cases hp
  | cons q rest ih =>
    rcases List.mem_cons.mp hp with hq | hrest
    · subst hq
      simp [validatePoints, hbad]
    · rw [validatePoints, ih hrest]
      cases validateCommonPoint q <;> rfl

theorem validateBlock_none (b : RawBlock) (p : RawCommonPoint)
    (hp : p ∈ b.data) (hbad : validateCommonPoint p = none) :
    validateBlock b = none := by
  rw [validateBlock]
  split
  · cases hd : b.data with
    | nil => rw [hd] at hp; cases hp
    | cons q rest =>
      cases b.units <;> rfl
  · rw [validatePoints_none b.data p hp hbad]
    cases b.name <;> cases b.units <;> rfl

theorem validateBlocks_none (bs : List RawBlock) (b : RawBlock)
    (hb : b ∈ bs) (h : validateBlock b = none) :
    validateBlocks bs = none := by
  induction bs with
  | nil => cases hb
  | cons q rest ih =>
    rcases List.mem_cons.mp hb with hq | hrest
    · subst hq
      simp [validateBlocks, h]
    · rw [validateBlocks, ih hrest]
      cases validateBlock q <;> rfl

theorem validatePayload_none (raw : RawPayload) (b : RawBlock) (p : RawCommonPoint)
    (hb : b ∈ raw.metrics) (hp : p ∈ b.data) (hbad : validateCommonPoint p = none) :
    validatePayload raw = none := by
  rw [validatePayload, validateBlocks_none raw.metrics b hb (validateBlock_none b p hp hbad)]

/-! ## Webhook unfolding lemmas -/

theorem webhook_of_valid (u : String) (now : Int) (st : Store) (raw : RawPayload)
    (payload : HealthAutoExportPayload)
    (hval : validatePayload raw = some payload)
    (hw : payload.data.workouts = []) :
    health_auto_export_webhook u now st raw
      = ((processMetricsLoop u st payload.data.metrics).1,
         { success := true,
           message := "Successfully processed health data",
           processed := { metrics := (processMetricsLoop u st payload.data.metrics).2.1,
                          sleep := (processMetricsLoop u st payload.data.metrics).2.2,
                          workouts := 0 },
           request_hash := "success" }) := by
  rw [health_auto_export_webhook, hval]
  simp [hw]

theorem webhook_of_invalid (u : String) (now : Int) (st : Store) (raw : RawPayload)
    (hval : validatePayload raw = none) :
    health_auto_export_webhook u now st raw
      = (st, { success := false,
               message := "Failed to process health data",
               processed := { metrics := 0, sleep := 0, workouts := 0 },
               request_hash := "error" }) := by
  rw [health_auto_export_webhook, hval]

/-! ## Concrete fixtures -/

/-- The empty database. -/
def emptyStore : Store := { health_metrics := [], sleep_metrics := [] }

/-- A malformed raw data point: its date string parses in neither known
format. -/
def badRawPoint : RawCommonPoint := { date := some (.str "not-a-date"), qty := some 1 }

/-- A well-formed raw data point at instant `k`. -/
def goodRawPoint (k : Int) : RawCommonPoint := { date := some (.dt k), qty := some 1 }

/-- A ten-point common block whose fifth point is malformed. -/
def c1Block : RawBlock :=
  { name := some "heart_rate_variability", units := some "ms",
    data := [goodRawPoint 1, goodRawPoint 2, goodRawPoint 3, goodRawPoint 4,
             badRawPoint, goodRawPoint 5, goodRawPoint 6, goodRawPoint 7,
             goodRawPoint 8, goodRawPoint 9] }

/-- The payload carrying `c1Block` and nothing else. -/
def c1Payload : RawPayload := { metrics := [c1Block], workouts := [], request_id := none }

/-- A fully valid one-point common-metric raw payload. -/
def c2RawPayload : RawPayload :=
  { metrics := [{ name := some "heart_rate_variability", units := some "ms",
                  data := [{ date := some (.str "2025-06-25 00:00:00 +0200"),
                             qty := some 42 }] }],
    workouts := [], request_id := none }

/-- What `c2RawPayload` validates to. -/
def c2Payload : HealthAutoExportPayload :=
  { data := { metrics := [.common { name := "heart_rate_variability", units := "ms",
                                    data := [{ date := 1750802400, qty := 42 }] }],
              workouts := [] },
    request_id := none }

/-- Shared idempotence fact: re-delivering a validated workout-free payload
leaves the store exactly as after the first delivery. -/
theorem webhook_store_idempotent (u : String) (now1 now2 : Int) (st : Store)
    (raw : RawPayload) (payload : HealthAutoExportPayload)
    (hval : validatePayload raw = some payload)
    (hw : payload.data.workouts = []) :
    (health_auto_export_webhook u now2
        (health_auto_export_webhook u now1 st raw).1 raw).1
      = (health_auto_export_webhook u now1 st raw).1 := by
  rw [webhook_of_valid u now1 st raw payload hval hw]
  show (health_auto_export_webhook u now2
          (processMetricsLoop u st payload.data.metrics).1 raw).1
        = (processMetricsLoop u st payload.data.metrics).1
  rw [webhook_of_valid u now2 (processMetricsLoop u st payload.data.metrics).1
        raw payload hval hw]
  exact processMetricsLoop_idempotent u payload.data.metrics st

/-- Shared counts fact: a successful workout-free call reports, for every
block, the full number of records it attempted to write. -/
theorem webhook_processed_counts (u : String) (now : Int) (st : Store)
    (raw : RawPayload) (payload : HealthAutoExportPayload)
    (hval : validatePayload raw = some payload)
    (hw : payload.data.workouts = []) :
    (health_auto_export_webhook u now st raw).2.processed
      = { metrics := commonPointCount payload.data.metrics,
          sleep := sleepEntryCount payload.data.metrics,
          workouts := 0 } := by
  rw [webhook_of_valid u now st raw payload hval hw]
  simp [processMetricsLoop_snd]

/-! ## The claims -/

/-- C1, counterexample: a payload whose single ten-point metric block has
one malformed data point does NOT yield nine insertions and a success
response — pydantic validates the whole document, so the call fails with
`success=false`, zero counts and an untouched store. -/
theorem c1_counterexample :
    (health_auto_export_webhook "user-1" 0 emptyStore c1Payload).2.success = false ∧
    (health_auto_export_webhook "user-1" 0 emptyStore c1Payload).2.processed.metrics = 0 ∧
    (health_auto_export_webhook "user-1" 0 emptyStore c1Payload).1 = emptyStore := by
  decide

/-- C1, amended: a payload in which any data point of a metric block is
malformed fails whole-payload validation, so the webhook returns a
call-level failure response with zero counts and writes nothing; the valid
points of the same block are not inserted. Per-record isolation in the
source applies only to database errors after validation, not to validation
failures. -/
theorem c1_amended (u : String) (now : Int) (st : Store) (raw : RawPayload)
    (b : RawBlock) (p : RawCommonPoint)
    (hb : b ∈ raw.metrics) (hp : p ∈ b.data)
    (hbad : validateCommonPoint p = none) :
    health_auto_export_webhook u now st raw
      = (st, { success := false,
               message := "Failed to process health data",
               processed := { metrics := 0, sleep := 0, workouts := 0 },
               request_hash := "error" }) :=
  webhook_of_invalid u now st raw (validatePayload_none raw b p hb hp hbad)

/-- Witness for C1's amended theorem at the concrete ten-point payload. -/
theorem c1_witness :
    health_auto_export_webhook "user-1" 7 emptyStore c1Payload
      = (emptyStore,
         { success := false,
           message := "Failed to process health data",
           processed := { metrics := 0, sleep := 0, workouts := 0 },
           request_hash := "error" }) :=
  c1_amended "user-1" 7 emptyStore c1Payload c1Block badRawPoint
    (by decide) (by decide) (by decide)

/-- C2: submitting a valid common-metric payload twice leaves the store in
the same final state as submitting it once; the insert on the natural key
`(userId, metricName, timestamp)` discards colliding rows, so the second
delivery changes nothing (row count and first-written rows included). -/
theorem c2_resubmission_idempotent (u : String) (now1 now2 : Int) (st : Store)
    (raw : RawPayload) (payload : HealthAutoExportPayload)
    (hval : validatePayload raw = some payload)
    (hw : payload.data.workouts = [])
    (hc : payload.data.metrics.all Metric.isCommon = true) :
    (health_auto_export_webhook u now2
        (health_auto_export_webhook u now1 st raw).1 raw).1
      = (health_auto_export_webhook u now1 st raw).1 :=
  webhook_store_idempotent u now1 now2 st raw payload hval hw

/-- Witness for C2 at a concrete one-point payload. -/
theorem c2_witness :
    (health_auto_export_webhook "user-1" 1
        (health_auto_export_webhook "user-1" 0 emptyStore c2RawPayload).1
        c2RawPayload).1
      = (health_auto_export_webhook "user-1" 0 emptyStore c2RawPayload).1 :=
  c2_resubmission_idempotent "user-1" 0 1 emptyStore c2RawPayload c2Payload
    (by decide) rfl rfl

/-- C3: normalization first attempts the fixed Swift pattern, falls back to
ISO-8601 with `Z` replaced by `+00:00`, passes non-string instants through
unchanged, and maps `"2025-06-25 00:00:00 +0200"` and
`"2025-06-24T22:00:00Z"` to the same instant. -/
theorem c3_timestamp_normalization :
    (∀ (s : String) (t : Int), strptimeSwift s = some t →
        parse_swift_datetime (.str s) = some t) ∧
    (∀ s : String, strptimeSwift s = none →
        parse_swift_datetime (.str s) = fromisoformatPy (pyReplaceZ s)) ∧
    (∀ t : Int, parse_swift_datetime (.dt t) = some t) ∧
    parse_swift_datetime (.str "2025-06-25 00:00:00 +0200")
      = parse_swift_datetime (.str "2025-06-24T22:00:00Z") ∧
    parse_swift_datetime (.str "2025-06-25 00:00:00 +0200") = some 1750802400 := by
  refine ⟨?_, ?_, ?_, by decide, by decide⟩
  · intro s t h
    simp [parse_swift_datetime, h]
  · intro s h
    simp [parse_swift_datetime, h]
  · intro t
    rfl

/-- Witness for C3: the first-attempt clause discharged at the concrete
Swift-format string. -/
theorem c3_witness :
    parse_swift_datetime (.str "2025-06-25 00:00:00 +0200") = some 1750802400 :=
  c3_timestamp_normalization.1 "2025-06-25 00:00:00 +0200" 1750802400 (by decide)

/-- C9: with both bounds given, the query endpoint rejects `from >= to`
with a 400 client error and proceeds to the query result when `from < to`. -/
theorem c9_date_range_guard (uid : String) (f t : Int) (qr : MetricsResponse) :
    (t ≤ f → get_metrics (some uid) (some f) (some t) qr
        = .error (400, "from date must be before to date")) ∧
    (f < t → get_metrics (some uid) (some f) (some t) qr = .ok qr) := by
  constructor
  · intro h
    simp only [get_metrics]
    rw [if_pos h]
  · intro h
    simp only [get_metrics]
    rw [if_neg (not_le.mpr h)]

/-- Witness for C9 at concrete bounds on both sides of the guard. -/
theorem c9_witness :
    get_metrics (some "u") (some 5) (some 3) { data := [], total_count := 0 }
      = .error (400, "from date must be before to date") ∧
    get_metrics (some "u") (some 3) (some 5) { data := [], total_count := 0 }
      = .ok { data := [], total_count := 0 } :=
  ⟨(c9_date_range_guard "u" 5 3 _).1 (by norm_num),
   (c9_date_range_guard "u" 3 5 _).2 (by norm_num)⟩

/-- C10: the `processed` counts report attempted writes, not stored rows:
a successful workout-free delivery reports one count per record of the
payload, and an identical re-delivery reports the same counts while the
store does not change. -/
theorem c10_counts_attempted_writes (u : String) (now1 now2 : Int) (st : Store)
    (raw : RawPayload) (payload : HealthAutoExportPayload)
    (hval : validatePayload raw = some payload)
    (hw : payload.data.workouts = []) :
    (health_auto_export_webhook u now2
        (health_auto_export_webhook u now1 st raw).1 raw).2.processed
      = (health_auto_export_webhook u now1 st raw).2.processed ∧
    (health_auto_export_webhook u now1 st raw).2.processed.metrics
      = commonPointCount payload.data.metrics ∧
    (health_auto_export_webhook u now1 st raw).2.processed.sleep
      = sleepEntryCount payload.data.metrics ∧
    (health_auto_export_webhook u now2
        (health_auto_export_webhook u now1 st raw).1 raw).1
      = (health_auto_export_webhook u now1 st raw).1 := by
  refine ⟨?_, ?_, ?_, webhook_store_idempotent u now1 now2 st raw payload hval hw⟩
  · rw [webhook_processed_counts u now2 _ raw payload hval hw,
        webhook_processed_counts u now1 st raw payload hval hw]
  · rw [webhook_processed_counts u now1 st raw payload hval hw]
  · rw [webhook_processed_counts u now1 st raw payload hval hw]

/-- Witness for C10 at the concrete one-point payload: both deliveries
report one metric write although the second stores nothing new. -/
theorem c10_witness :
    (health_auto_export_webhook "user-1" 1
        (health_auto_export_webhook "user-1" 0 emptyStore c2RawPayload).1
        c2RawPayload).2.processed
      = (health_auto_export_webhook "user-1" 0 emptyStore c2RawPayload).2.processed ∧
    (health_auto_export_webhook "user-1" 0 emptyStore c2RawPayload).2.processed.metrics
      = commonPointCount c2Payload.data.metrics ∧
    (health_auto_export_webhook "user-1" 0 emptyStore c2RawPayload).2.processed.sleep
      = sleepEntryCount c2Payload.data.metrics ∧
    (health_auto_export_webhook "user-1" 1
        (health_auto_export_webhook "user-1" 0 emptyStore c2RawPayload).1
        c2RawPayload).1
      = (health_auto_export_webhook "user-1" 0 emptyStore c2RawPayload).1 :=
  c10_counts_attempted_writes "user-1" 0 1 emptyStore c2RawPayload c2Payload
    (by decide) rfl

/-- Folding the workout energy series equals summing `qty` (or 0 for an
element without one) over every element. -/
theorem sumSeriesQty_eq_map_sum (l : List PyDict) :
    sumSeriesQty l = (l.map (fun ep => (pyDictGet? ep "qty").getD 0)).sum := by
  induction l with
  | nil => simp [sumSeriesQty]
  | cons ep rest ih =>
    rw [sumSeriesQty]
    cases h : pyDictGet? ep "qty" <;> simp [h, ih]

/-- The series-encoded workout of the spec's 150-calorie example. -/
def c4Workout : HAEWorkout :=
  { start := some 500,
    activeEnergy := some [[("qty", 100)], [("qty", 50)]] }

/-- C4: total workout calories come from the single `activeEnergyBurned`
aggregate when that object is present with a `qty`, otherwise from summing
`qty` over the `activeEnergy` series, otherwise 0; the concrete
100+50 series stores the value 150. -/
theorem c4_workout_calories :
    (∀ (w : HAEWorkout) (d : PyDict) (q : ℚ),
        w.activeEnergyBurned = some d → pyDictGet? d "qty" = some q →
        totalCalories w = q) ∧
    (∀ (w : HAEWorkout) (l : List PyDict),
        w.activeEnergyBurned = none → w.activeEnergy = some l →
        totalCalories w = (l.map (fun ep => (pyDictGet? ep "qty").getD 0)).sum) ∧
    (∀ w : HAEWorkout, w.activeEnergyBurned = none → w.activeEnergy = none →
        totalCalories w = 0) ∧
    insert_workout_metrics "user-1" 0 [] [c4Workout]
      = ([{ user_id := "user-1", metric_name := "workout", metric_unit := "cal",
            timestamp := 500, value := 150 }], 1) := by
  refine ⟨?_, ?_, ?_, ?_⟩
  · intro w d q hd hq
    cases d with
    | nil => simp [pyDictGet?] at hq
    | cons kv rest => simp [totalCalories, hd, hq]
  · intro w l hb hs
    rw [totalCalories, hb, totalCaloriesFromSeries, hs, ← sumSeriesQty_eq_map_sum]
    cases l <;> simp [sumSeriesQty]
  · intro w hb hs
    rw [totalCalories, hb, totalCaloriesFromSeries, hs]
  · have hcal : totalCalories c4Workout = 150 := by
      rw [totalCalories]
      show totalCaloriesFromSeries c4Workout = 150
      rw [totalCaloriesFromSeries]
      show sumSeriesQty [[("qty", 100)], [("qty", 50)]] = 150
      rw [sumSeriesQty, sumSeriesQty, sumSeriesQty]
      norm_num [pyDictGet?]
    rw [insert_workout_metrics, insert_workout_metrics]
    simp only [hcal]
    norm_num [insertOrIgnoreMetric, metricKeyPresent, workoutRowOf, c4Workout]

/-- Witness for C4's aggregate clause at a concrete workout. -/
theorem c4_witness :
    totalCalories { activeEnergyBurned := some [("qty", 77)] } = 77 :=
  c4_workout_calories.1 { activeEnergyBurned := some [("qty", 77)] }
    [("qty", 77)] 77 rfl rfl

/-- C5: a workout whose extracted calories are not positive writes no row,
adds nothing to the workout count, and is skipped silently (the source
neither raises nor records an error for it) — processing simply continues
with the remaining workouts. -/
theorem c5_zero_calorie_skipped (u : String) (now : Int) (st : List MetricRow)
    (w : HAEWorkout) (rest : List HAEWorkout)
    (h : totalCalories w ≤ 0) :
    insert_workout_metrics u now st (w :: rest)
      = insert_workout_metrics u now st rest := by
  rw [insert_workout_metrics]
  simp [if_neg (not_lt.mpr h)]

/-- The zero-calorie aggregate workout of the spec example. -/
def c5Workout : HAEWorkout := { activeEnergyBurned := some [("qty", 0)] }

/-- Witness for C5: the zero-calorie workout alone produces no row and a
zero count. -/
theorem c5_witness :
    insert_workout_metrics "user-1" 3 [] [c5Workout] = ([], 0) :=
  (c5_zero_calorie_skipped "user-1" 3 [] c5Workout []
    (by norm_num [totalCalories, c5Workout, pyDictGet?])).trans rfl

/-- C6: the stored efficiency is `totalMinutes / inBedMinutes * 100`
exactly when the stored in-bed minutes are positive and 0 otherwise; a
session with `end = start` resolves to 0 (the division sits under the
guard, so it is never evaluated in that case). -/
theorem c6_sleep_efficiency (u : String) (e : SleepEntry) :
    (0 < (sleepRowOf u e).duration_in_bed_minutes →
        (sleepRowOf u e).efficiency
          = ((sleepRowOf u e).duration_total_minutes : ℚ)
              / ((sleepRowOf u e).duration_in_bed_minutes : ℚ) * 100) ∧
    ((sleepRowOf u e).duration_in_bed_minutes ≤ 0 →
        (sleepRowOf u e).efficiency = 0) ∧
    (e.sleepEnd = e.sleepStart → (sleepRowOf u e).efficiency = 0) := by
  refine ⟨?_, ?_, ?_⟩
  · intro h
    simp only [sleepRowOf] at h ⊢
    rw [if_pos h]
  · intro h
    simp only [sleepRowOf] at h ⊢
    rw [if_neg (not_lt.mpr h)]
  · intro h
    simp only [sleepRowOf, h]
    norm_num [pyInt]

/-- The zero-length sleep session fixture. -/
def c6Entry : SleepEntry :=
  { date := 0, asleep := 0, awake := 0, core := 0, deep := 0, rem := 0,
    sleepStart := 100, sleepEnd := 100, source := "hae", totalSleep := 0 }

/-- Witness for C6: a session with `end = start` stores efficiency 0. -/
theorem c6_witness : (sleepRowOf "user-1" c6Entry).efficiency = 0 :=
  (c6_sleep_efficiency "user-1" c6Entry).2.2 rfl

/-- Rounding to the nearest integer (halves up), the plain reading of the
spec's `round`. -/
def roundNearest (q : ℚ) : Int := ⌊q + 1/2⌋

/-- Follows the spec's words, for comparison with the code:
`inBedMinutes = round((end − start) in minutes)`. -/
def inBedMinutesSpec (e : SleepEntry) : Int :=
  roundNearest (((e.sleepEnd - e.sleepStart : Int) : ℚ) / 60)

/-- The 90-second sleep session separating truncation from rounding. -/
def c7Entry : SleepEntry :=
  { date := 0, asleep := 0, awake := 0, core := 0, deep := 0, rem := 0,
    sleepStart := 0, sleepEnd := 90, source := "hae", totalSleep := 1 }

/-- C7, counterexample: for a 90-second session (1.5 minutes) the code
stores `int(1.5) = 1` while rounding to the nearest integer gives 2 — the
stored in-bed minutes are truncated, not rounded. -/
theorem c7_counterexample :
    (sleepRowOf "user-1" c7Entry).duration_in_bed_minutes = 1 ∧
    inBedMinutesSpec c7Entry = 2 ∧
    (sleepRowOf "user-1" c7Entry).duration_in_bed_minutes ≠ inBedMinutesSpec c7Entry := by
  have h1 : (sleepRowOf "user-1" c7Entry).duration_in_bed_minutes = 1 := by
    show pyInt (((c7Entry.sleepEnd - c7Entry.sleepStart : Int) : ℚ) / 60) = 1
    norm_num [c7Entry, pyInt]
  have h2 : inBedMinutesSpec c7Entry = 2 := by
    rw [inBedMinutesSpec, roundNearest]
    norm_num [c7Entry]
  exact ⟨h1, h2, by rw [h1, h2]; decide⟩

/-- C7, amended: the stored in-bed minutes are `(end − start)/60` truncated
toward zero (`int()` semantics): the floor for a nonnegative elapsed time,
the ceiling for a negative one — not rounding to the nearest integer. -/
theorem c7_in_bed_truncated (u : String) (e : SleepEntry) :
    (e.sleepStart ≤ e.sleepEnd →
        (sleepRowOf u e).duration_in_bed_minutes
          = ⌊((e.sleepEnd - e.sleepStart : Int) : ℚ) / 60⌋) ∧
    (e.sleepEnd < e.sleepStart →
        (sleepRowOf u e).duration_in_bed_minutes
          = ⌈((e.sleepEnd - e.sleepStart : Int) : ℚ) / 60⌉) := by
  constructor
  · intro h
    have h0 : (0:ℚ) ≤ ((e.sleepEnd - e.sleepStart : Int) : ℚ) / 60 := by
      apply div_nonneg
      · exact_mod_cast Int.sub_nonneg.mpr h
      · norm_num
    show pyInt (((e.sleepEnd - e.sleepStart : Int) : ℚ) / 60) = _
    rw [pyInt, if_pos h0]
  · intro h
    have hneg : (e.sleepEnd - e.sleepStart : Int) < 0 := sub_neg.mpr h
    have h0 : ¬ (0:ℚ) ≤ ((e.sleepEnd - e.sleepStart : Int) : ℚ) / 60 := by
      rw [not_le]
      apply div_neg_of_neg_of_pos
      · exact_mod_cast hneg
      · norm_num
    show pyInt (((e.sleepEnd - e.sleepStart : Int) : ℚ) / 60) = _
    rw [pyInt, if_neg h0]

/-- Witness for C7's amended theorem at the 90-second session. -/
theorem c7_witness :
    (sleepRowOf "user-1" c7Entry).duration_in_bed_minutes
      = ⌊((c7Entry.sleepEnd - c7Entry.sleepStart : Int) : ℚ) / 60⌋ :=
  (c7_in_bed_truncated "user-1" c7Entry).1 (by decide)

/-- C8: classification reads only the `name` field — it is invariant in
`units` and `data`, and tags a block `sleep` exactly when the name is the
literal `sleep_analysis`; a sleep-tagged block is routed whole to sleep
extraction whatever its `units` value (the sleep table receives every one
of its entries, the metrics table none), and a common block never touches
the sleep table. The name test runs once per block, so one block's points
share its classification. -/
theorem c8_discrimination :
    (∀ (n u1 u2 : Option String) (d1 d2 : List RawCommonPoint),
        metric_discriminator { name := n, units := u1, data := d1 }
          = metric_discriminator { name := n, units := u2, data := d2 }) ∧
    (∀ b : RawBlock, metric_discriminator b = "sleep" ↔ b.name = some "sleep_analysis") ∧
    (∀ (u : String) (st : Store) (units1 units2 : String) (es : List SleepEntry),
        processMetric u st (.sleep { units := units1, data := es })
          = processMetric u st (.sleep { units := units2, data := es })) ∧
    (∀ (u : String) (st : Store) (sm : SleepMetric),
        (processMetric u st (.sleep sm)).1.sleep_metrics
          = (insertSleepEntries u st.sleep_metrics sm.data).1 ∧
        (processMetric u st (.sleep sm)).1.health_metrics = st.health_metrics) ∧
    (∀ (u : String) (st : Store) (cm : CommonMetric),
        (processMetric u st (.common cm)).1.sleep_metrics = st.sleep_metrics) := by
  refine ⟨fun n u1 u2 d1 d2 => rfl, ?_, fun u st units1 units2 es => rfl, ?_, ?_⟩
  · intro b
    rw [metric_discriminator]
    split
    · simp [*]
    · constructor
      · intro hcs
        exact absurd hcs (by decide)
      · intro hname
        exact absurd hname (by assumption)
  · intro u st sm
    exact ⟨rfl, rfl⟩
  · intro u st cm
    rfl
